import Mathlib

/-!
# Verification of the autopark-db-handler parking record manager

Shallow embedding of `src/db_connector.py`.  The module defines a single
SQLAlchemy-mapped class `Parking` with static methods `calculate_fee`, `get`,
`create`, `modify`, `delete` and `checkout`; the persistence store is modelled
as a list of rows keyed by `id` (the table's primary key).  Timestamps are the
fixed-width strings `DD-MM-YYYY HH:MM:SS` parsed by `datetime.datetime.strptime`;
they are embedded via a calendar structure and the proleptic Gregorian ordinal,
matching Python's `datetime` subtraction.  Python floats are embedded as `ℚ`,
and `round(fee, 2)` as round-half-to-even at two decimal places.
-/

namespace Autopark

/-- A parsed timestamp, as produced by
`datetime.datetime.strptime(s, "%d-%m-%Y %H:%M:%S")`. -/
structure DateTime where
  year : Nat
  month : Nat
  day : Nat
  hour : Nat
  minute : Nat
  second : Nat
deriving DecidableEq, Repr

/-- Gregorian leap-year rule, as used by Python's `datetime` module. -/
def isLeapYear (y : Nat) : Bool :=
  y % 4 == 0 && (y % 100 != 0 || y % 400 == 0)

/-- Number of days in month `m` of year `y` (months are 1-based). -/
def daysInMonth (y m : Nat) : Nat :=
  if m == 2 then (if isLeapYear y then 29 else 28)
  else if m == 4 || m == 6 || m == 9 || m == 11 then 30
  else 31

/-- Days in all years strictly before year `y` in the proleptic Gregorian
calendar (year 1 is the first year), as in CPython's `_days_before_year`. -/
def daysBeforeYear (y : Nat) : Nat :=
  365 * (y - 1) + (y - 1) / 4 - (y - 1) / 100 + (y - 1) / 400

/-- Days in the months of year `y` strictly before month `m`. -/
def daysBeforeMonth (y m : Nat) : Nat :=
  (List.range (m - 1)).foldl (fun acc i => acc + daysInMonth y (i + 1)) 0

/-- Proleptic Gregorian ordinal of a date: 01-01-0001 has ordinal 1.  This is
Python's `datetime.date.toordinal`, which underlies `datetime` subtraction. -/
def toordinal (d : DateTime) : Nat :=
  daysBeforeYear d.year + daysBeforeMonth d.year d.month + d.day

/-- Seconds from the calendar epoch to a datetime; the difference of two such
values is exactly `datetime.timedelta.total_seconds(exit - entry)`. -/
def totalSeconds (d : DateTime) : Nat :=
  toordinal d * 86400 + d.hour * 3600 + d.minute * 60 + d.second

/-- The range checks `datetime.datetime` enforces on its components (strptime
raises `ValueError` outside these ranges). -/
def validDateTime (d : DateTime) : Bool :=
  1 ≤ d.year && d.year ≤ 9999 &&
  1 ≤ d.month && d.month ≤ 12 &&
  1 ≤ d.day && d.day ≤ daysInMonth d.year d.month &&
  d.hour ≤ 23 && d.minute ≤ 59 && d.second ≤ 59

/-- Decimal digit value of a character, `none` on a non-digit. -/
def digit? (c : Char) : Option Nat :=
  if c.isDigit then some (c.toNat - 48) else none

/-- Two-digit zero-padded field. -/
def parse2 (a b : Char) : Option Nat := do
  let x ← digit? a
  let y ← digit? b
  pure (10 * x + y)

/-- Four-digit zero-padded field. -/
def parse4 (a b c d : Char) : Option Nat := do
  let x ← digit? a
  let y ← digit? b
  let z ← digit? c
  let w ← digit? d
  pure (1000 * x + 100 * y + 10 * z + w)

/-- `datetime.datetime.strptime(s, "%d-%m-%Y %H:%M:%S")` on the fixed-width
19-character timestamp format used throughout the module; `none` models the
`ValueError` raised on a malformed or out-of-range timestamp. -/
def strptime (s : String) : Option DateTime :=
  match s.data with
  | [d1, d2, sep1, m1, m2, sep2, y1, y2, y3, y4, sp, h1, h2, col1, mi1, mi2, col2, se1, se2] =>
    if sep1 = '-' && sep2 = '-' && sp = ' ' && col1 = ':' && col2 = ':' then do
      let day ← parse2 d1 d2
      let month ← parse2 m1 m2
      let year ← parse4 y1 y2 y3 y4
      let hour ← parse2 h1 h2
      let minute ← parse2 mi1 mi2
      let second ← parse2 se1 se2
      let dt : DateTime := ⟨year, month, day, hour, minute, second⟩
      if validDateTime dt then some dt else none
    else none
  | _ => none

/-- Round-half-to-even to the nearest integer, the rounding rule of Python's
built-in `round`. -/
def roundHalfEven (x : ℚ) : ℤ :=
  if x - ⌊x⌋ < 1 / 2 then ⌊x⌋
  else if 1 / 2 < x - ⌊x⌋ then ⌊x⌋ + 1
  else if ⌊x⌋ % 2 = 0 then ⌊x⌋ else ⌊x⌋ + 1

/-- `round(x, 2)`: round-half-to-even at two decimal places. -/
def round2 (x : ℚ) : ℚ :=
  (roundHalfEven (100 * x) : ℚ) / 100

/-- The unrounded fee: `time_spent_in_hrs * hourly_rate` where
`time_spent_in_hrs` is the elapsed seconds divided by 3600
(src/db_connector.py lines 66–69). -/
def rawFee (secs : ℤ) (rate : ℚ) : ℚ :=
  ((secs : ℚ) / 3600) * rate

/-- The fee as a function of the elapsed seconds: the unrounded fee rounded to
two decimal places (src/db_connector.py line 71). -/
def feeFromSeconds (secs : ℤ) (rate : ℚ) : ℚ :=
  round2 (rawFee secs rate)

/-- `Parking.calculate_fee` (src/db_connector.py lines 60–71): parses both
timestamps with `strptime` (raising on malformed input, modelled by `none`),
takes the difference in seconds, divides by 3600, multiplies by the hourly
rate and rounds to two decimal places. -/
def calculate_fee (entry_time exit_time : String) (hourly_rate : ℚ := 10) : Option ℚ := do
  let et ← strptime entry_time
  let xt ← strptime exit_time
  pure (feeFromSeconds ((totalSeconds xt : ℤ) - (totalSeconds et : ℤ)) hourly_rate)

/-- A row of the `autopark_test_drive` table (the SQLAlchemy-mapped attributes
of class `Parking`, src/db_connector.py lines 24–37).  `id` is the integer
primary key; `exit_time` and `fee` are the two nullable columns. -/
structure Parking where
  id : Nat
  lot_number : Int
  plate_number : String
  entry_time : String
  exit_time : Option String
  fee : Option ℚ
deriving DecidableEq, Repr

/-- The persisted table: a list of rows.  The primary-key constraint makes the
`id` column duplicate-free in every reachable store; theorems that need it take
it as an explicit hypothesis. -/
abbrev Store := List Parking

/-- Errors the manager can raise: `notFound` models the
`ValueError(f"No entry with id {id} found")` of `modify`/`checkout`, and
`formatError` the `ValueError` raised by `strptime` on a malformed timestamp. -/
inductive DBError where
  | notFound (id : Nat)
  | formatError
deriving DecidableEq, Repr

/-- `Parking.get` (src/db_connector.py lines 73–82): opens a session, does a
primary-key lookup (`session.get(Parking, id)`), closes the session and returns
the (now detached) row, or `None` when no row matches.  It is a total
function: a missing id is a normal `none` result, never an exception. -/
def Parking.get (store : Store) (id : Nat) : Option Parking :=
  store.find? (fun r => r.id == id)

/-- `Parking.create` (src/db_connector.py lines 84–105): builds a new `Parking`
object without persisting it.  When `entry_time` is `None` the source calls
`datetime.datetime.now()` at that moment; the per-call clock is the explicit
`now` argument.  The store assigns `id` only when the caller inserts and
commits the object, so the unpersisted object carries the placeholder 0. -/
def Parking.create (lot_number : Int) (plate_number : String)
    (entry_time : Option String) (exit_time : Option String) (fee : Option ℚ)
    (now : String) : Parking :=
  { id := 0
    lot_number := lot_number
    plate_number := plate_number
    entry_time := entry_time.getD now
    exit_time := exit_time
    fee := fee }

/-- `Parking.modify` (src/db_connector.py lines 107–139): fetches the row via
`Parking.get` (a detached copy, since `get` closes its session before
returning), raises when it is `None`, then overwrites on that copy exactly the
arguments that are not `None` and returns the copy.  The source opens no
session of its own and issues no `add`/`update`/`commit`, so the persisted
store after the call — the first component of the result — is the input store
unchanged. -/
def Parking.modify (store : Store) (id : Nat) (lot_number : Option Int)
    (plate_number : Option String) (entry_time : Option String)
    (exit_time : Option String) (fee : Option ℚ) :
    Store × Except DBError Parking :=
  match Parking.get store id with
  | none => (store, Except.error (DBError.notFound id))
  | some entry =>
    (store, Except.ok
      { entry with
        lot_number := lot_number.getD entry.lot_number
        plate_number := plate_number.getD entry.plate_number
        entry_time := entry_time.getD entry.entry_time
        exit_time := match exit_time with
          | some v => some v
          | none => entry.exit_time
        fee := match fee with
          | some v => some v
          | none => entry.fee })

/-- `Parking.delete` (src/db_connector.py lines 141–156): fetches the row,
deletes it and commits, all inside `try/except` — any failure (in particular
`session.delete(None)` when the id does not resolve) is caught and printed,
never propagated, so the embedding is a total function on the store.  When the
row exists, the row with that primary key is removed and committed. -/
def Parking.delete (store : Store) (id : Nat) : Store :=
  match Parking.get store id with
  | none => store
  | some _ => store.eraseP (fun r => r.id == id)

/-- `Parking.checkout` (src/db_connector.py lines 158–182): fetches the row via
`Parking.get` (a detached copy), raises when it is `None`; defaults `exit_time`
to the per-call clock `now`, defaults `fee` to
`calculate_fee(entry.entry_time, exit_time)` at the default hourly rate
(propagating `strptime`'s error on malformed timestamps), then sets both
fields on the copy and returns it.  Like `modify` it never writes to the
store, so the first component of the result is the input store unchanged. -/
def Parking.checkout (store : Store) (id : Nat) (exit_time : Option String)
    (fee : Option ℚ) (now : String) : Store × Except DBError Parking :=
  match Parking.get store id with
  | none => (store, Except.error (DBError.notFound id))
  | some entry =>
    let xt := exit_time.getD now
    match fee with
    | some f => (store, Except.ok { entry with exit_time := some xt, fee := some f })
    | none =>
      match calculate_fee entry.entry_time xt with
      | none => (store, Except.error DBError.formatError)
      | some f => (store, Except.ok { entry with exit_time := some xt, fee := some f })

/-- The table schema as built when the module is imported.  The column
declaration (src/db_connector.py lines 34–35) is
`default=datetime.datetime.now().strftime("%d-%m-%Y %H:%M:%S")`: the argument
of `default=` is *evaluated once*, while the class body executes at import
time, so the column default is the fixed string produced from the import-time
clock (it is not a callable re-evaluated per insert). -/
structure TableSchema where
  entry_time_default : String

/-- Importing the module at clock value `now` bakes that single timestamp into
the schema as the `entry_time` column default. -/
def moduleImport (now : String) : TableSchema :=
  { entry_time_default := now }

/-- The `entry_time` value a row receives when inserted at clock value
`insertNow`: the supplied value when there is one, otherwise the schema's
(import-time) column default — the insertion-time clock plays no part. -/
def insertedEntryTime (schema : TableSchema) (_insertNow : String)
    (provided : Option String) : String :=
  provided.getD schema.entry_time_default

/-- A concrete open-session row used to evaluate the operations. -/
def demoRow : Parking :=
  { id := 1
    lot_number := 3
    plate_number := "ABC123"
    entry_time := "01-01-2024 10:00:00"
    exit_time := none
    fee := none }

/-- A concrete one-row store used to evaluate the operations. -/
def demoStore : Store := [demoRow]

/-! ## Helper lemmas -/

lemma floor_le_roundHalfEven (x : ℚ) : ⌊x⌋ ≤ roundHalfEven x := by
  unfold roundHalfEven
  split_ifs <;> omega

lemma roundHalfEven_le_floor_add_one (x : ℚ) : roundHalfEven x ≤ ⌊x⌋ + 1 := by
  unfold roundHalfEven
  split_ifs <;> omega

lemma roundHalfEven_mono {x y : ℚ} (h : x ≤ y) : roundHalfEven x ≤ roundHalfEven y := by
  rcases lt_or_le ⌊x⌋ ⌊y⌋ with hf | hf
  · have h1 := roundHalfEven_le_floor_add_one x
    have h2 := floor_le_roundHalfEven y
    omega
  · have hfe : ⌊x⌋ = ⌊y⌋ := le_antisymm (Int.floor_mono h) hf
    unfold roundHalfEven
    rw [hfe]
    split_ifs <;> first | omega | linarith

lemma roundHalfEven_neg {x : ℚ} (h : x < -(1 / 2)) : roundHalfEven x < 0 := by
  have hx0 : x < 0 := by linarith
  have hfl : ⌊x⌋ < 0 := by
    have : x < ((0 : ℤ) : ℚ) := by exact_mod_cast hx0
    exact Int.floor_lt.mpr this
  rcases lt_or_eq_of_le (show ⌊x⌋ ≤ -1 by omega) with hlt | heq
  · have := roundHalfEven_le_floor_add_one x
    omega
  · have hcast : (⌊x⌋ : ℚ) = -1 := by exact_mod_cast heq
    unfold roundHalfEven
    rw [if_pos (by rw [hcast]; linarith)]
    exact hfl

lemma round2_mono {x y : ℚ} (h : x ≤ y) : round2 x ≤ round2 y := by
  unfold round2
  have h1 : roundHalfEven (100 * x) ≤ roundHalfEven (100 * y) :=
    roundHalfEven_mono (by linarith)
  have h2 : ((roundHalfEven (100 * x) : ℚ)) ≤ ((roundHalfEven (100 * y) : ℚ)) := by
    exact_mod_cast h1
  linarith

lemma round2_neg {x : ℚ} (h : x < -(1 / 200)) : round2 x < 0 := by
  unfold round2
  have h1 : roundHalfEven (100 * x) < 0 := roundHalfEven_neg (by linarith)
  have h2 : ((roundHalfEven (100 * x) : ℚ)) < 0 := by exact_mod_cast h1
  linarith

lemma rawFee_mono {s1 s2 : ℤ} {r : ℚ} (h : s1 ≤ s2) (hr : 0 ≤ r) :
    rawFee s1 r ≤ rawFee s2 r := by
  unfold rawFee
  have hs : ((s1 : ℚ)) ≤ (s2 : ℚ) := by exact_mod_cast h
  have hd : (s1 : ℚ) / 3600 ≤ (s2 : ℚ) / 3600 := by linarith
  exact mul_le_mul_of_nonneg_right hd hr

lemma feeFromSeconds_mono {s1 s2 : ℤ} {r : ℚ} (h : s1 ≤ s2) (hr : 0 ≤ r) :
    feeFromSeconds s1 r ≤ feeFromSeconds s2 r :=
  round2_mono (rawFee_mono h hr)

lemma calculate_fee_eval {e x : String} {de dx : DateTime} (he : strptime e = some de)
    (hx : strptime x = some dx) (r : ℚ) :
    calculate_fee e x r
      = some (feeFromSeconds ((totalSeconds dx : ℤ) - (totalSeconds de : ℤ)) r) := by
  simp [calculate_fee, he, hx]

lemma strptime_1000 : strptime "01-01-2024 10:00:00" = some ⟨2024, 1, 1, 10, 0, 0⟩ := by
  decide

lemma strptime_1200 : strptime "01-01-2024 12:00:00" = some ⟨2024, 1, 1, 12, 0, 0⟩ := by
  decide

lemma strptime_1030 : strptime "01-01-2024 10:30:00" = some ⟨2024, 1, 1, 10, 30, 0⟩ := by
  decide

lemma strptime_100001 : strptime "01-01-2024 10:00:01" = some ⟨2024, 1, 1, 10, 0, 1⟩ := by
  decide

lemma strptime_0900 : strptime "01-01-2024 09:00:00" = some ⟨2024, 1, 1, 9, 0, 0⟩ := by
  decide

lemma calculate_fee_two_hours :
    calculate_fee "01-01-2024 10:00:00" "01-01-2024 12:00:00" 10 = some 20 := by
  rw [calculate_fee_eval strptime_1000 strptime_1200]
  have hd : ((totalSeconds ⟨2024, 1, 1, 12, 0, 0⟩ : ℤ)
      - (totalSeconds ⟨2024, 1, 1, 10, 0, 0⟩ : ℤ)) = 7200 := by decide
  rw [hd]
  norm_num [feeFromSeconds, rawFee, round2, roundHalfEven]

lemma calculate_fee_half_hour :
    calculate_fee "01-01-2024 10:00:00" "01-01-2024 10:30:00" 10 = some 5 := by
  rw [calculate_fee_eval strptime_1000 strptime_1030]
  have hd : ((totalSeconds ⟨2024, 1, 1, 10, 30, 0⟩ : ℤ)
      - (totalSeconds ⟨2024, 1, 1, 10, 0, 0⟩ : ℤ)) = 1800 := by decide
  rw [hd]
  norm_num [feeFromSeconds, rawFee, round2, roundHalfEven]

lemma calculate_fee_one_second_rate10 :
    calculate_fee "01-01-2024 10:00:00" "01-01-2024 10:00:01" 10 = some 0 := by
  rw [calculate_fee_eval strptime_1000 strptime_100001]
  have hd : ((totalSeconds ⟨2024, 1, 1, 10, 0, 1⟩ : ℤ)
      - (totalSeconds ⟨2024, 1, 1, 10, 0, 0⟩ : ℤ)) = 1 := by decide
  rw [hd]
  norm_num [feeFromSeconds, rawFee, round2, roundHalfEven]

lemma calculate_fee_one_second_rate100 :
    calculate_fee "01-01-2024 10:00:00" "01-01-2024 10:00:01" 100 = some (3 / 100) := by
  rw [calculate_fee_eval strptime_1000 strptime_100001]
  have hd : ((totalSeconds ⟨2024, 1, 1, 10, 0, 1⟩ : ℤ)
      - (totalSeconds ⟨2024, 1, 1, 10, 0, 0⟩ : ℤ)) = 1 := by decide
  rw [hd]
  norm_num [feeFromSeconds, rawFee, round2, roundHalfEven]

lemma calculate_fee_backwards_hour :
    calculate_fee "01-01-2024 10:00:00" "01-01-2024 09:00:00" 10 = some (-10) := by
  rw [calculate_fee_eval strptime_1000 strptime_0900]
  have hd : ((totalSeconds ⟨2024, 1, 1, 9, 0, 0⟩ : ℤ)
      - (totalSeconds ⟨2024, 1, 1, 10, 0, 0⟩ : ℤ)) = -3600 := by decide
  rw [hd]
  norm_num [feeFromSeconds, rawFee, round2, roundHalfEven]

lemma find?_eraseP_eq_none {s : Store} {i : Nat} (h : (s.map Parking.id).Nodup) :
    (s.eraseP (fun r => r.id == i)).find? (fun r => r.id == i) = none := by
  induction s with
  | nil => simp
  | cons a t ih =>
    simp only [List.map_cons, List.nodup_cons] at h
    by_cases ha : a.id = i
    · rw [List.eraseP_cons_of_pos (by simp [ha])]
      rw [List.find?_eq_none]
      intro r hr
      simp only [beq_iff_eq]
      intro hri
      have hmem : r.id ∈ t.map Parking.id := List.mem_map_of_mem _ hr
      rw [hri, ← ha] at hmem
      exact h.1 hmem
    · rw [List.eraseP_cons_of_neg (by simp [ha])]
      rw [List.find?_cons_of_neg _ (by simp [ha])]
      exact ih h.2

/-! ## Claim theorems -/

/-- **C1**: for all entry and exit timestamps in the format `DD-MM-YYYY HH:MM:SS`
and every hourly rate, `calculate_fee` returns the elapsed seconds divided by
3600, multiplied by the rate, rounded to 2 decimal places (round-half-to-even,
the rule of Python's built-in `round`); in particular the 2-hour example at
rate 10 gives 20.00 and the 30-minute example gives 5.00. -/
theorem calculate_fee_formula (e x : String) (r : ℚ) (de dx : DateTime)
    (he : strptime e = some de) (hx : strptime x = some dx) :
    calculate_fee e x r
      = some (round2 ((((totalSeconds dx : ℤ) - (totalSeconds de : ℤ) : ℤ) : ℚ) / 3600 * r)) ∧
    calculate_fee "01-01-2024 10:00:00" "01-01-2024 12:00:00" 10 = some 20 ∧
    calculate_fee "01-01-2024 10:00:00" "01-01-2024 10:30:00" 10 = some 5 := by
  refine ⟨?_, calculate_fee_two_hours, calculate_fee_half_hour⟩
  rw [calculate_fee_eval he hx]
  rfl

/-- Witness for C1 at the concrete 2-hour example. -/
theorem calculate_fee_formula_witness :
    strptime "01-01-2024 10:00:00" = some ⟨2024, 1, 1, 10, 0, 0⟩ ∧
    strptime "01-01-2024 12:00:00" = some ⟨2024, 1, 1, 12, 0, 0⟩ ∧
    (calculate_fee "01-01-2024 10:00:00" "01-01-2024 12:00:00" 10
        = some (round2 ((((totalSeconds (⟨2024, 1, 1, 12, 0, 0⟩ : DateTime) : ℤ)
            - (totalSeconds (⟨2024, 1, 1, 10, 0, 0⟩ : DateTime) : ℤ) : ℤ) : ℚ) / 3600 * 10)) ∧
      calculate_fee "01-01-2024 10:00:00" "01-01-2024 12:00:00" 10 = some 20 ∧
      calculate_fee "01-01-2024 10:00:00" "01-01-2024 10:30:00" 10 = some 5) :=
  ⟨by decide, by decide,
    calculate_fee_formula "01-01-2024 10:00:00" "01-01-2024 12:00:00" 10 _ _
      (by decide) (by decide)⟩

/-- **C2**: on an existing session id, `checkout` sets both `exit_time` and
`fee` on the returned record together: an omitted `exit_time` defaults to the
per-call clock `now`, and an omitted `fee` defaults to
`calculate_fee(entry_time, exit_time)` on the (possibly defaulted) exit time. -/
theorem checkout_sets_exit_and_fee (s : Store) (id : Nat) (r : Parking)
    (now : String) (h : Parking.get s id = some r) :
    (∀ xt f, Parking.checkout s id (some xt) (some f) now
        = (s, Except.ok { r with exit_time := some xt, fee := some f })) ∧
    (∀ f, Parking.checkout s id none (some f) now
        = (s, Except.ok { r with exit_time := some now, fee := some f })) ∧
    (∀ xt fv, calculate_fee r.entry_time xt = some fv →
      Parking.checkout s id (some xt) none now
        = (s, Except.ok { r with exit_time := some xt, fee := some fv })) ∧
    (∀ fv, calculate_fee r.entry_time now = some fv →
      Parking.checkout s id none none now
        = (s, Except.ok { r with exit_time := some now, fee := some fv })) := by
  refine ⟨?_, ?_, ?_, ?_⟩
  · intro xt f
    simp [Parking.checkout, h]
  · intro f
    simp [Parking.checkout, h]
  · intro xt fv hcf
    simp [Parking.checkout, h, hcf]
  · intro fv hcf
    simp [Parking.checkout, h, hcf]

/-- Witness for C2: checking out the demo row with both arguments omitted at
clock `12:00:00` sets `exit_time` to the clock and `fee` to the computed 20. -/
theorem checkout_sets_exit_and_fee_witness :
    Parking.get demoStore 1 = some demoRow ∧
    calculate_fee demoRow.entry_time "01-01-2024 12:00:00" = some 20 ∧
    Parking.checkout demoStore 1 none none "01-01-2024 12:00:00"
      = (demoStore, Except.ok
          { demoRow with exit_time := some "01-01-2024 12:00:00", fee := some 20 }) := by
  have hfee : calculate_fee demoRow.entry_time "01-01-2024 12:00:00" = some 20 := by
    show calculate_fee "01-01-2024 10:00:00" "01-01-2024 12:00:00" 10 = some 20
    exact calculate_fee_two_hours
  exact ⟨by decide, hfee,
    (checkout_sets_exit_and_fee demoStore 1 demoRow "01-01-2024 12:00:00"
      (by decide)).2.2.2 20 hfee⟩

/-- **C3**: on an id that does not resolve to a stored row, `modify` and
`checkout` fail with the not-found error (the `ValueError` of the source) and
leave the store unchanged. -/
theorem modify_checkout_not_found (s : Store) (id : Nat)
    (h : Parking.get s id = none) :
    (∀ lot plate et xt f,
      Parking.modify s id lot plate et xt f = (s, Except.error (DBError.notFound id))) ∧
    (∀ xt f now,
      Parking.checkout s id xt f now = (s, Except.error (DBError.notFound id))) := by
  constructor
  · intro lot plate et xt f
    simp [Parking.modify, h]
  · intro xt f now
    simp [Parking.checkout, h]

/-- Witness for C3 at id 2, absent from the demo store. -/
theorem modify_checkout_not_found_witness :
    Parking.get demoStore 2 = none ∧
    Parking.modify demoStore 2 none none none none none
      = (demoStore, Except.error (DBError.notFound 2)) ∧
    Parking.checkout demoStore 2 none none "01-01-2024 12:00:00"
      = (demoStore, Except.error (DBError.notFound 2)) :=
  ⟨by decide,
    (modify_checkout_not_found demoStore 2 (by decide)).1 none none none none none,
    (modify_checkout_not_found demoStore 2 (by decide)).2 none none "01-01-2024 12:00:00"⟩

/-- **C4**: on an existing session id, `modify` overwrites exactly the fields
supplied as non-null and leaves every unsupplied field (and `id`) unchanged;
in particular a fee-only modify leaves `lot_number`, `plate_number`,
`entry_time` and `exit_time` at their previous values. -/
theorem modify_updates_exactly_supplied_fields (s : Store) (id : Nat) (r : Parking)
    (h : Parking.get s id = some r) :
    (∀ lot plate et xt f, ∃ r',
      Parking.modify s id lot plate et xt f = (s, Except.ok r') ∧
      r'.id = r.id ∧
      r'.lot_number = lot.getD r.lot_number ∧
      r'.plate_number = plate.getD r.plate_number ∧
      r'.entry_time = et.getD r.entry_time ∧
      r'.exit_time = (match xt with | some v => some v | none => r.exit_time) ∧
      r'.fee = (match f with | some v => some v | none => r.fee)) ∧
    (∀ fv, ∃ r'',
      Parking.modify s id none none none none (some fv) = (s, Except.ok r'') ∧
      r''.lot_number = r.lot_number ∧
      r''.plate_number = r.plate_number ∧
      r''.entry_time = r.entry_time ∧
      r''.exit_time = r.exit_time ∧
      r''.fee = some fv) := by
  constructor
  · intro lot plate et xt f
    simp only [Parking.modify, h]
    exact ⟨_, rfl, rfl, rfl, rfl, rfl, rfl, rfl⟩
  · intro fv
    simp only [Parking.modify, h]
    exact ⟨_, rfl, rfl, rfl, rfl, rfl, rfl⟩

/-- Witness for C4: a fee-only modify of the demo row. -/
theorem modify_updates_exactly_supplied_fields_witness :
    Parking.get demoStore 1 = some demoRow ∧
    (∃ r'',
      Parking.modify demoStore 1 none none none none (some 5) = (demoStore, Except.ok r'') ∧
      r''.lot_number = demoRow.lot_number ∧
      r''.plate_number = demoRow.plate_number ∧
      r''.entry_time = demoRow.entry_time ∧
      r''.exit_time = demoRow.exit_time ∧
      r''.fee = some 5) :=
  ⟨by decide,
    (modify_updates_exactly_supplied_fields demoStore 1 demoRow (by decide)).2 5⟩

/-- **C5 counterexample**: a successful fee-only `modify` of the demo store
returns a record with `fee = some 5`, yet the persisted row for id 1 after the
call still has `fee = none`: the modified copy is not written back.  The same
holds for a successful `checkout`. -/
theorem modify_checkout_not_persisted_cex :
    (Parking.modify demoStore 1 none none none none (some 5)).2
      = Except.ok { demoRow with fee := some 5 } ∧
    Parking.get (Parking.modify demoStore 1 none none none none (some 5)).1 1
      = some demoRow ∧
    demoRow.fee = none ∧ (some (5 : ℚ)) ≠ (none : Option ℚ) ∧
    (Parking.checkout demoStore 1 (some "01-01-2024 12:00:00") (some 5) "x").2
      = Except.ok { demoRow with exit_time := some "01-01-2024 12:00:00", fee := some 5 } ∧
    Parking.get (Parking.checkout demoStore 1 (some "01-01-2024 12:00:00") (some 5) "x").1 1
      = some demoRow ∧
    demoRow.exit_time = none := by
  refine ⟨rfl, rfl, rfl, by simp, rfl, rfl, rfl⟩

/-- **C5 (amended)**: `modify` and `checkout` operate on a detached copy of the
row fetched per call and return the modified copy, but perform no write-back:
the persisted store after a call — successful or not — is the input store, and
every lookup afterwards sees the pre-call rows. -/
theorem modify_checkout_leave_store_unchanged (s : Store) (id j : Nat)
    (lot : Option Int) (plate : Option String) (et xt xt2 : Option String)
    (f f2 : Option ℚ) (now : String) :
    (Parking.modify s id lot plate et xt f).1 = s ∧
    (Parking.checkout s id xt2 f2 now).1 = s ∧
    Parking.get (Parking.modify s id lot plate et xt f).1 j = Parking.get s j ∧
    Parking.get (Parking.checkout s id xt2 f2 now).1 j = Parking.get s j := by
  have hm : (Parking.modify s id lot plate et xt f).1 = s := by
    cases hg : Parking.get s id <;> simp [Parking.modify, hg]
  have hc : (Parking.checkout s id xt2 f2 now).1 = s := by
    cases hg : Parking.get s id with
    | none => simp [Parking.checkout, hg]
    | some entry =>
      cases f2 with
      | some fv => simp [Parking.checkout, hg]
      | none =>
        cases hcf : calculate_fee entry.entry_time (xt2.getD now) <;>
          simp [Parking.checkout, hg, hcf]
  exact ⟨hm, hc, by rw [hm], by rw [hc]⟩

/-- **C6**: `delete` on an id that does not resolve leaves the store unchanged
(the internal fetch failure is caught, and the embedding is a total function,
so nothing propagates); on any id, with the primary-key constraint that the
`id` column is duplicate-free, a subsequent `get` of the deleted id returns
`none`. -/
theorem delete_missing_noop_and_removes (s : Store) (id : Nat)
    (h : (s.map Parking.id).Nodup) :
    (Parking.get s id = none → Parking.delete s id = s) ∧
    Parking.get (Parking.delete s id) id = none := by
  constructor
  · intro hn
    simp [Parking.delete, hn]
  · unfold Parking.delete
    cases hg : Parking.get s id with
    | none => exact hg
    | some r => exact find?_eraseP_eq_none h

/-- Witness for C6: deleting id 1 from the demo store makes `get 1` absent,
and deleting the absent id 2 leaves the store unchanged. -/
theorem delete_missing_noop_and_removes_witness :
    (demoStore.map Parking.id).Nodup ∧
    Parking.get (Parking.delete demoStore 1) 1 = none ∧
    (Parking.get demoStore 2 = none → Parking.delete demoStore 2 = demoStore) :=
  ⟨by decide,
    (delete_missing_noop_and_removes demoStore 1 (by decide)).2,
    (delete_missing_noop_and_removes demoStore 2 (by decide)).1⟩

/-- **C7**: `get` is a total function (it never raises): it returns a stored
row with the requested id when one exists, and `none` when no row matches. -/
theorem get_returns_row_or_none (s : Store) (id : Nat) :
    (∀ r, Parking.get s id = some r → r ∈ s ∧ r.id = id) ∧
    ((∃ r ∈ s, r.id = id) → ∃ r, Parking.get s id = some r ∧ r.id = id) ∧
    ((∀ r ∈ s, r.id ≠ id) → Parking.get s id = none) := by
  refine ⟨?_, ?_, ?_⟩
  · intro r hr
    exact ⟨List.mem_of_find?_eq_some hr, by simpa using List.find?_some hr⟩
  · rintro ⟨r, hmem, hid⟩
    have hs : (s.find? (fun r => r.id == id)).isSome :=
      List.find?_isSome.mpr ⟨r, hmem, by simp [hid]⟩
    obtain ⟨r', hr'⟩ := Option.isSome_iff_exists.mp hs
    exact ⟨r', hr', by simpa using List.find?_some hr'⟩
  · intro hall
    exact List.find?_eq_none.mpr (fun r hr => by simpa using hall r hr)

/-- Witness for C7: the demo row is found at id 1, and id 2 is absent. -/
theorem get_returns_row_or_none_witness :
    Parking.get demoStore 1 = some demoRow ∧ (demoRow ∈ demoStore ∧ demoRow.id = 1) ∧
    Parking.get demoStore 2 = none :=
  ⟨by decide,
    (get_returns_row_or_none demoStore 1).1 demoRow (by decide),
    (get_returns_row_or_none demoStore 2).2.2 (by decide)⟩

/-- **C8 counterexample**: `calculate_fee` is not linear in the hourly rate:
scaling the rate 10 by a factor 10 at a 1-second duration gives 0.03, while 10
times the rate-10 fee is 10 · 0.00 = 0 — the 2-decimal rounding breaks exact
scaling. -/
theorem calculate_fee_not_linear_cex :
    calculate_fee "01-01-2024 10:00:00" "01-01-2024 10:00:01" (10 * 10) = some (3 / 100) ∧
    calculate_fee "01-01-2024 10:00:00" "01-01-2024 10:00:01" 10 = some 0 ∧
    (3 / 100 : ℚ) ≠ 10 * 0 := by
  refine ⟨?_, calculate_fee_one_second_rate10, by norm_num⟩
  have h : (10 * 10 : ℚ) = 100 := by norm_num
  rw [h]
  exact calculate_fee_one_second_rate100

/-- **C8 (amended)**: for non-negative durations and a non-negative hourly
rate, the fee is monotonically non-decreasing in the duration; the unrounded
fee `duration/3600 · rate` is exactly linear in the rate, and the rounded
result is linear only up to the 2-decimal rounding. -/
theorem fee_monotone_and_rawFee_linear (s1 s2 d : ℤ) (c r : ℚ)
    (_h0 : 0 ≤ s1) (h12 : s1 ≤ s2) (hr : 0 ≤ r) :
    feeFromSeconds s1 r ≤ feeFromSeconds s2 r ∧ rawFee d (c * r) = c * rawFee d r := by
  refine ⟨feeFromSeconds_mono h12 hr, ?_⟩
  unfold rawFee
  ring

/-- Witness for C8 (amended) at durations 0 and 3600 s, rate 10, factor 2. -/
theorem fee_monotone_and_rawFee_linear_witness :
    (0 : ℤ) ≤ 0 ∧ (0 : ℤ) ≤ 3600 ∧ (0 : ℚ) ≤ 10 ∧
    (feeFromSeconds 0 10 ≤ feeFromSeconds 3600 10 ∧
      rawFee 7200 (2 * 10) = 2 * rawFee 7200 10) :=
  ⟨by decide, by decide, by norm_num,
    fee_monotone_and_rawFee_linear 0 3600 7200 2 10 (by decide) (by decide) (by norm_num)⟩

/-- **C9**: `calculate_fee` performs no check that the exit time is at or after
the entry time: on well-formed timestamps with the exit strictly earlier and
an unrounded fee beyond the negative rounding threshold −1/200, it raises
nothing and returns a negative fee. -/
theorem calculate_fee_negative_unchecked (e x : String) (r : ℚ) (de dx : DateTime)
    (he : strptime e = some de) (hx : strptime x = some dx)
    (_hlt : totalSeconds dx < totalSeconds de)
    (hth : rawFee ((totalSeconds dx : ℤ) - (totalSeconds de : ℤ)) r < -(1 / 200)) :
    ∃ f, calculate_fee e x r = some f ∧ f < 0 := by
  refine ⟨_, calculate_fee_eval he hx r, ?_⟩
  unfold feeFromSeconds
  exact round2_neg hth

/-- Witness for C9: an exit one hour before entry at rate 10 yields −10.00. -/
theorem calculate_fee_negative_unchecked_witness :
    strptime "01-01-2024 10:00:00" = some ⟨2024, 1, 1, 10, 0, 0⟩ ∧
    strptime "01-01-2024 09:00:00" = some ⟨2024, 1, 1, 9, 0, 0⟩ ∧
    totalSeconds (⟨2024, 1, 1, 9, 0, 0⟩ : DateTime)
      < totalSeconds (⟨2024, 1, 1, 10, 0, 0⟩ : DateTime) ∧
    rawFee ((totalSeconds (⟨2024, 1, 1, 9, 0, 0⟩ : DateTime) : ℤ)
        - (totalSeconds (⟨2024, 1, 1, 10, 0, 0⟩ : DateTime) : ℤ)) 10 < -(1 / 200) ∧
    (∃ f, calculate_fee "01-01-2024 10:00:00" "01-01-2024 09:00:00" 10 = some f ∧ f < 0) := by
  have hd : ((totalSeconds (⟨2024, 1, 1, 9, 0, 0⟩ : DateTime) : ℤ)
      - (totalSeconds (⟨2024, 1, 1, 10, 0, 0⟩ : DateTime) : ℤ)) = -3600 := by decide
  have hth : rawFee ((totalSeconds (⟨2024, 1, 1, 9, 0, 0⟩ : DateTime) : ℤ)
      - (totalSeconds (⟨2024, 1, 1, 10, 0, 0⟩ : DateTime) : ℤ)) 10 < -(1 / 200) := by
    rw [hd]
    norm_num [rawFee]
  exact ⟨by decide, by decide, by decide, hth,
    calculate_fee_negative_unchecked "01-01-2024 10:00:00" "01-01-2024 09:00:00" 10 _ _
      (by decide) (by decide) (by decide) hth⟩

/-- **C10**: the `entry_time` column default is a single timestamp string
computed once when the module is imported (`default=` receives the value of
`datetime.datetime.now().strftime(...)`, evaluated during the class body), so
a row inserted without an explicit entry time receives that fixed import-time
stamp whatever the insertion-time clock is — whereas `create` evaluates the
clock per call and stamps the call-time value. -/
theorem entry_time_default_fixed_at_import (t0 t1 t2 now : String) (lot : Int)
    (plate : String) (xt : Option String) (f : Option ℚ) :
    insertedEntryTime (moduleImport t0) t1 none = t0 ∧
    insertedEntryTime (moduleImport t0) t1 none = insertedEntryTime (moduleImport t0) t2 none ∧
    (Parking.create lot plate none xt f now).entry_time = now ∧
    (∀ e, (Parking.create lot plate (some e) xt f now).entry_time = e) :=
  ⟨rfl, rfl, rfl, fun _ => rfl⟩

end Autopark
